import Mathlib

/-!
# Verification of the PID-Convert_DU image codec

A shallow embedding of the conversion core of `pid_convert.cpp` /
`pid_convert.h` (the Dragon UnPACKer 5 plugin that converts Gruntz
`.PID` images to BMP / TGA / PNG), together with theorems settling the
frozen specification claims.

Modelling conventions:
* Bytes are `Nat` values `< 256`; byte streams are `List Nat`.
* The plugin is a Win32/x86 DLL (the stream wrapper uses 32-bit inline
  assembly and the Delphi register ABI), so `std::size_t` is 32 bits wide:
  `size_t` arithmetic is taken modulo `2^32` and `SIZE_MAX = 2^32 - 1`.
* The host-supplied destination stream is modelled by an oracle
  `Nat → Nat → Nat` giving, for each write call (identified by its index)
  and requested byte count, the number of bytes the host reports written.
  Encoders record a log of `(requested, reported)` pairs.
* The two run-length decoding loops are written with an explicit fuel
  argument (structural recursion) so that they evaluate by `decide`;
  each iteration of the C++ `while` loop consumes at least one source
  byte, so fuel `stream.length + 1` can never run out.
* zlib's DEFLATE is an external library; it is a function parameter
  `defl : List Nat → List Nat`, as in the spec ("assumed as an external
  library providing compress(bytes) -> bytes").
-/

set_option maxHeartbeats 2000000
set_option maxRecDepth 4096

namespace PidCodec

/-! ## Byte-level helpers -/

/-- Value of four bytes read little-endian (how the x86 build reads the
`int` fields of `PIDHeader`). -/
def le32 (b0 b1 b2 b3 : Nat) : Nat :=
  b0 + 256 * b1 + 65536 * b2 + 16777216 * b3

/-- Reinterpret a 32-bit pattern as a signed `int` (two's complement). -/
def toInt32 (n : Nat) : Int :=
  if n < 2 ^ 31 then (n : Int) else (n : Int) - 2 ^ 32

/-- The four bytes of `v` in little-endian order (the `write_u32` /
`write_s32` helpers of `SaveToBMP`). -/
def le32out (v : Nat) : List Nat :=
  [v % 256, v / 256 % 256, v / 65536 % 256, v / 16777216 % 256]

/-- The two bytes of `v` in little-endian order (`write_u16`). -/
def le16out (v : Nat) : List Nat :=
  [v % 256, v / 256 % 256]

/-- The four bytes of `v` in big-endian order (`_byteswap_ulong` followed
by a 4-byte insert, as in `write_PNG_Chunk` and the IHDR fields). -/
def be32out (v : Nat) : List Nat :=
  [v / 16777216 % 256, v / 65536 % 256, v / 256 % 256, v % 256]

/-! ## Colors and the default palette -/

/-- RGBA color entry (struct `Color` of `pid_convert.h`). -/
structure Color where
  r : Nat
  g : Nat
  b : Nat
  a : Nat
deriving DecidableEq

/-- Fallback entry for (unreachable) out-of-range palette lookups. -/
def czero : Color := ⟨0, 0, 0, 0⟩

/-- The compiled-in 256-entry `defaultPalette` of `pid_convert.h`,
transcribed row for row. -/
def defaultPalette : List Color := [
  Color.mk 0 0 0 255, Color.mk 128 0 0 255, Color.mk 0 128 0 255, Color.mk 128 128 0 255,
  Color.mk 0 0 128 255, Color.mk 128 0 128 255, Color.mk 0 128 128 255, Color.mk 192 192 192 255,
  Color.mk 192 220 192 255, Color.mk 166 202 240 255, Color.mk 42 63 170 255, Color.mk 42 63 255 255,
  Color.mk 42 95 0 255, Color.mk 42 95 85 255, Color.mk 42 95 170 255, Color.mk 42 95 255 255,
  Color.mk 42 127 0 255, Color.mk 42 127 85 255, Color.mk 42 127 170 255, Color.mk 42 127 255 255,
  Color.mk 42 159 0 255, Color.mk 42 159 85 255, Color.mk 42 159 170 255, Color.mk 42 159 255 255,
  Color.mk 42 191 0 255, Color.mk 42 191 85 255, Color.mk 42 191 170 255, Color.mk 42 191 255 255,
  Color.mk 42 223 0 255, Color.mk 42 223 85 255, Color.mk 42 223 170 255, Color.mk 42 223 255 255,
  Color.mk 42 255 0 255, Color.mk 42 255 85 255, Color.mk 42 255 170 255, Color.mk 42 255 255 255,
  Color.mk 85 0 0 255, Color.mk 85 0 85 255, Color.mk 85 0 170 255, Color.mk 85 0 255 255,
  Color.mk 85 31 0 255, Color.mk 85 31 85 255, Color.mk 85 31 170 255, Color.mk 85 31 255 255,
  Color.mk 85 63 0 255, Color.mk 85 63 85 255, Color.mk 85 63 170 255, Color.mk 85 63 255 255,
  Color.mk 85 95 0 255, Color.mk 85 95 85 255, Color.mk 85 95 170 255, Color.mk 85 95 255 255,
  Color.mk 85 127 0 255, Color.mk 85 127 85 255, Color.mk 85 127 170 255, Color.mk 85 127 255 255,
  Color.mk 85 159 0 255, Color.mk 85 159 85 255, Color.mk 85 159 170 255, Color.mk 85 159 255 255,
  Color.mk 85 191 0 255, Color.mk 85 191 85 255, Color.mk 85 191 170 255, Color.mk 85 191 255 255,
  Color.mk 85 223 0 255, Color.mk 85 223 85 255, Color.mk 85 223 170 255, Color.mk 85 223 255 255,
  Color.mk 85 255 0 255, Color.mk 85 255 85 255, Color.mk 85 255 170 255, Color.mk 85 255 255 255,
  Color.mk 127 0 0 255, Color.mk 127 0 85 255, Color.mk 127 0 170 255, Color.mk 127 0 255 255,
  Color.mk 127 31 0 255, Color.mk 127 31 85 255, Color.mk 127 31 170 255, Color.mk 127 31 255 255,
  Color.mk 127 63 0 255, Color.mk 127 63 85 255, Color.mk 127 63 170 255, Color.mk 127 63 255 255,
  Color.mk 127 95 0 255, Color.mk 127 95 85 255, Color.mk 127 95 170 255, Color.mk 127 95 255 255,
  Color.mk 127 127 0 255, Color.mk 127 127 85 255, Color.mk 127 127 170 255, Color.mk 127 127 255 255,
  Color.mk 127 159 0 255, Color.mk 127 159 85 255, Color.mk 127 159 170 255, Color.mk 127 159 255 255,
  Color.mk 127 191 0 255, Color.mk 127 191 85 255, Color.mk 127 191 170 255, Color.mk 127 191 255 255,
  Color.mk 127 223 0 255, Color.mk 127 223 85 255, Color.mk 127 223 170 255, Color.mk 127 223 255 255,
  Color.mk 127 255 0 255, Color.mk 127 255 85 255, Color.mk 127 255 170 255, Color.mk 127 255 255 255,
  Color.mk 170 0 0 255, Color.mk 170 0 85 255, Color.mk 170 0 170 255, Color.mk 170 0 255 255,
  Color.mk 170 31 0 255, Color.mk 170 31 85 255, Color.mk 170 31 170 255, Color.mk 170 31 255 255,
  Color.mk 170 63 0 255, Color.mk 170 63 85 255, Color.mk 170 63 170 255, Color.mk 170 63 255 255,
  Color.mk 170 95 0 255, Color.mk 170 95 85 255, Color.mk 170 95 170 255, Color.mk 170 95 255 255,
  Color.mk 170 127 0 255, Color.mk 170 127 85 255, Color.mk 170 127 170 255, Color.mk 170 127 255 255,
  Color.mk 170 159 0 255, Color.mk 170 159 85 255, Color.mk 170 159 170 255, Color.mk 170 159 255 255,
  Color.mk 170 191 0 255, Color.mk 170 191 85 255, Color.mk 170 191 170 255, Color.mk 170 191 255 255,
  Color.mk 170 223 0 255, Color.mk 170 223 85 255, Color.mk 170 223 170 255, Color.mk 170 223 255 255,
  Color.mk 170 255 0 255, Color.mk 170 255 85 255, Color.mk 170 255 170 255, Color.mk 170 255 255 255,
  Color.mk 212 0 0 255, Color.mk 212 0 85 255, Color.mk 212 0 170 255, Color.mk 212 0 255 255,
  Color.mk 212 31 0 255, Color.mk 212 31 85 255, Color.mk 212 31 170 255, Color.mk 212 31 255 255,
  Color.mk 212 63 0 255, Color.mk 212 63 85 255, Color.mk 212 63 170 255, Color.mk 212 63 255 255,
  Color.mk 212 95 0 255, Color.mk 212 95 85 255, Color.mk 212 95 170 255, Color.mk 212 95 255 255,
  Color.mk 212 127 0 255, Color.mk 212 127 85 255, Color.mk 212 127 170 255, Color.mk 212 127 255 255,
  Color.mk 212 159 0 255, Color.mk 212 159 85 255, Color.mk 212 159 170 255, Color.mk 212 159 255 255,
  Color.mk 212 191 0 255, Color.mk 212 191 85 255, Color.mk 212 191 170 255, Color.mk 212 191 255 255,
  Color.mk 212 223 0 255, Color.mk 212 223 85 255, Color.mk 212 223 170 255, Color.mk 212 223 255 255,
  Color.mk 212 255 0 255, Color.mk 212 255 85 255, Color.mk 212 255 170 255, Color.mk 212 255 255 255,
  Color.mk 255 0 85 255, Color.mk 255 0 170 255, Color.mk 255 31 0 255, Color.mk 255 31 85 255,
  Color.mk 255 31 170 255, Color.mk 255 31 255 255, Color.mk 255 63 0 255, Color.mk 255 63 85 255,
  Color.mk 255 63 170 255, Color.mk 255 63 255 255, Color.mk 255 95 0 255, Color.mk 255 95 85 255,
  Color.mk 255 95 170 255, Color.mk 255 95 255 255, Color.mk 255 127 0 255, Color.mk 255 127 85 255,
  Color.mk 255 127 170 255, Color.mk 255 127 255 255, Color.mk 255 159 0 255, Color.mk 255 159 85 255,
  Color.mk 255 159 170 255, Color.mk 255 159 255 255, Color.mk 255 191 0 255, Color.mk 255 191 85 255,
  Color.mk 255 191 170 255, Color.mk 255 191 255 255, Color.mk 255 223 0 255, Color.mk 255 223 85 255,
  Color.mk 255 223 170 255, Color.mk 255 223 255 255, Color.mk 255 255 85 255, Color.mk 255 255 170 255,
  Color.mk 204 204 255 255, Color.mk 255 204 255 255, Color.mk 51 255 255 255, Color.mk 102 255 255 255,
  Color.mk 153 255 255 255, Color.mk 204 255 255 255, Color.mk 0 127 0 255, Color.mk 0 127 85 255,
  Color.mk 0 127 170 255, Color.mk 0 127 255 255, Color.mk 0 159 0 255, Color.mk 0 159 85 255,
  Color.mk 0 159 170 255, Color.mk 0 159 255 255, Color.mk 0 191 0 255, Color.mk 0 191 85 255,
  Color.mk 0 191 170 255, Color.mk 0 191 255 255, Color.mk 0 223 0 255, Color.mk 0 223 85 255,
  Color.mk 0 223 170 255, Color.mk 0 223 255 255, Color.mk 0 255 85 255, Color.mk 0 255 170 255,
  Color.mk 42 0 0 255, Color.mk 42 0 85 255, Color.mk 42 0 170 255, Color.mk 42 0 255 255,
  Color.mk 42 31 0 255, Color.mk 42 31 85 255, Color.mk 42 31 170 255, Color.mk 42 31 255 255,
  Color.mk 42 63 0 255, Color.mk 42 63 85 255, Color.mk 255 251 240 255, Color.mk 160 160 164 255,
  Color.mk 128 128 128 255, Color.mk 255 0 0 255, Color.mk 0 255 0 255, Color.mk 255 255 0 255,
  Color.mk 0 0 255 255, Color.mk 255 0 255 255, Color.mk 0 255 255 255, Color.mk 255 255 255 255]

/-! ## CRC-32 (`crc32_png` of `pid_convert.h`) -/

/-- The literal 256-entry `crc_table` of `crc32_png`, transcribed from the
source. -/
def crcTable : List Nat := [
  0x00000000, 0x77073096, 0xee0e612c, 0x990951ba, 0x076dc419, 0x706af48f, 0xe963a535, 0x9e6495a3,
  0x0edb8832, 0x79dcb8a4, 0xe0d5e91e, 0x97d2d988, 0x09b64c2b, 0x7eb17cbd, 0xe7b82d07, 0x90bf1d91,
  0x1db71064, 0x6ab020f2, 0xf3b97148, 0x84be41de, 0x1adad47d, 0x6ddde4eb, 0xf4d4b551, 0x83d385c7,
  0x136c9856, 0x646ba8c0, 0xfd62f97a, 0x8a65c9ec, 0x14015c4f, 0x63066cd9, 0xfa0f3d63, 0x8d080df5,
  0x3b6e20c8, 0x4c69105e, 0xd56041e4, 0xa2677172, 0x3c03e4d1, 0x4b04d447, 0xd20d85fd, 0xa50ab56b,
  0x35b5a8fa, 0x42b2986c, 0xdbbbc9d6, 0xacbcf940, 0x32d86ce3, 0x45df5c75, 0xdcd60dcf, 0xabd13d59,
  0x26d930ac, 0x51de003a, 0xc8d75180, 0xbfd06116, 0x21b4f4b5, 0x56b3c423, 0xcfba9599, 0xb8bda50f,
  0x2802b89e, 0x5f058808, 0xc60cd9b2, 0xb10be924, 0x2f6f7c87, 0x58684c11, 0xc1611dab, 0xb6662d3d,
  0x76dc4190, 0x01db7106, 0x98d220bc, 0xefd5102a, 0x71b18589, 0x06b6b51f, 0x9fbfe4a5, 0xe8b8d433,
  0x7807c9a2, 0x0f00f934, 0x9609a88e, 0xe10e9818, 0x7f6a0dbb, 0x086d3d2d, 0x91646c97, 0xe6635c01,
  0x6b6b51f4, 0x1c6c6162, 0x856530d8, 0xf262004e, 0x6c0695ed, 0x1b01a57b, 0x8208f4c1, 0xf50fc457,
  0x65b0d9c6, 0x12b7e950, 0x8bbeb8ea, 0xfcb9887c, 0x62dd1ddf, 0x15da2d49, 0x8cd37cf3, 0xfbd44c65,
  0x4db26158, 0x3ab551ce, 0xa3bc0074, 0xd4bb30e2, 0x4adfa541, 0x3dd895d7, 0xa4d1c46d, 0xd3d6f4fb,
  0x4369e96a, 0x346ed9fc, 0xad678846, 0xda60b8d0, 0x44042d73, 0x33031de5, 0xaa0a4c5f, 0xdd0d7cc9,
  0x5005713c, 0x270241aa, 0xbe0b1010, 0xc90c2086, 0x5768b525, 0x206f85b3, 0xb966d409, 0xce61e49f,
  0x5edef90e, 0x29d9c998, 0xb0d09822, 0xc7d7a8b4, 0x59b33d17, 0x2eb40d81, 0xb7bd5c3b, 0xc0ba6cad,
  0xedb88320, 0x9abfb3b6, 0x03b6e20c, 0x74b1d29a, 0xead54739, 0x9dd277af, 0x04db2615, 0x73dc1683,
  0xe3630b12, 0x94643b84, 0x0d6d6a3e, 0x7a6a5aa8, 0xe40ecf0b, 0x9309ff9d, 0x0a00ae27, 0x7d079eb1,
  0xf00f9344, 0x8708a3d2, 0x1e01f268, 0x6906c2fe, 0xf762575d, 0x806567cb, 0x196c3671, 0x6e6b06e7,
  0xfed41b76, 0x89d32be0, 0x10da7a56, 0x67dd4acc, 0xf9b9df6f, 0x8ebeeff9, 0x17b7be43, 0x60b08ed5,
  0xd6d6a3e8, 0xa1d1937e, 0x38d8c2c4, 0x4fdff252, 0xd1bb67f1, 0xa6bc5767, 0x3fb506dd, 0x48b2364b,
  0xd80d2bda, 0xaf0a1b4c, 0x36034af6, 0x41047a60, 0xdf60efc3, 0xa867df55, 0x316e8eef, 0x4669be79,
  0xcb61b38c, 0xbc66831a, 0x256fd2a0, 0x5268e236, 0xcc0c7795, 0xbb0b4703, 0x220216b9, 0x5505262f,
  0xc5ba3bbe, 0xb2bd0b28, 0x2bb45a92, 0x5cb36a04, 0xc2d7ffa7, 0xb5d0cf31, 0x2cd99e8b, 0x5bdeae1d,
  0x9b64c2b0, 0xec63f226, 0x756aa39c, 0x026d930a, 0x9c0906a9, 0xeb0e363f, 0x72076785, 0x05005713,
  0x95bf4a82, 0xe2b87a14, 0x7bb12bae, 0x0cb61b38, 0x92d28e9b, 0xe5d5be0d, 0x7cdcefb7, 0x0bdbdf21,
  0x86d3d2d4, 0xf1d4e242, 0x68ddb3f8, 0x1fda836e, 0x81be16cd, 0xf6b9265b, 0x6fb077e1, 0x18b74777,
  0x88085ae6, 0xff0f6a70, 0x66063bca, 0x11010b5c, 0x8f659eff, 0xf862ae69, 0x616bffd3, 0x166ccf45,
  0xa00ae278, 0xd70dd2ee, 0x4e048354, 0x3903b3c2, 0xa7672661, 0xd06016f7, 0x4969474d, 0x3e6e77db,
  0xaed16a4a, 0xd9d65adc, 0x40df0b66, 0x37d83bf0, 0xa9bcae53, 0xdebb9ec5, 0x47b2cf7f, 0x30b5ffe9,
  0xbdbdf21c, 0xcabac28a, 0x53b39330, 0x24b4a3a6, 0xbad03605, 0xcdd70693, 0x54de5729, 0x23d967bf,
  0xb3667a2e, 0xc4614ab8, 0x5d681b02, 0x2a6f2b94, 0xb40bbe37, 0xc30c8ea1, 0x5a05df1b, 0x2d02ef8d]

/-- One step of the table-driven reduction:
`crc = crc_table[(crc ^ data[i]) & 0xff] ^ (crc >> 8)`. -/
def crc32Step (crc b : Nat) : Nat :=
  crcTable.getD ((crc ^^^ b) % 256) 0 ^^^ (crc >>> 8)

/-- `crc32_png(data, len, crc)`: returns `~crc` when `len == 0`, otherwise
complements `crc`, folds the table-driven step over the bytes, and
complements again.  `~` on a 32-bit unsigned value is xor with
`0xFFFFFFFF`. -/
def crc32_png (data : List Nat) (crc : Nat) : Nat :=
  if data.isEmpty then crc ^^^ 0xFFFFFFFF
  else (data.foldl crc32Step (crc ^^^ 0xFFFFFFFF)) ^^^ 0xFFFFFFFF

/-- Modelled from the spec: one bit-step of the standard CRC-32 table
generator with the PNG/zlib polynomial `0xEDB88320`. -/
def crcGenStep (c : Nat) : Nat :=
  if c % 2 = 1 then 0xEDB88320 ^^^ (c / 2) else c / 2

/-- Modelled from the spec: entry `n` of the standard PNG/zlib CRC-32
table (eight generator steps applied to `n`). -/
def crcGenEntry (n : Nat) : Nat :=
  crcGenStep^[8] n

/-- Modelled from the spec: the standard PNG/zlib CRC-32 table. -/
def crcStdTable : List Nat :=
  (List.range 256).map crcGenEntry

/-- Modelled from the spec: the standard CRC-32 computation (same
complement/fold/complement shape as `crc32_png` but over the standard
table, without the `len == 0` shortcut). -/
def crc32_std (data : List Nat) (crc : Nat) : Nat :=
  (data.foldl (fun c b => crcStdTable.getD ((c ^^^ b) % 256) 0 ^^^ (c >>> 8))
    (crc ^^^ 0xFFFFFFFF)) ^^^ 0xFFFFFFFF

/-! ## Raster decompression (`ConvertPID`, lines 517-561) -/

/-- `SIZE_MAX` of the 32-bit target: the sentinel the grammar-A literal
loop stores into `pos` when a data-byte read fails. -/
def SIZEMAX : Nat := 2 ^ 32 - 1

/-- A fill run: `for (i = 0; i < count && pos < size; ++i) pixels[pos++] = v`.
Grammar A uses `v = 0` (`fill`), grammar B uses the run byte `B` (or the
literal byte itself with `count = 1`).  Returns the new `pos` and the
pixels emitted so far. -/
def fillRun (count v pos size : Nat) (acc : List Nat) : Nat × List Nat :=
  match count with
  | 0 => (pos, acc)
  | c + 1 =>
    if pos < size then fillRun c v (pos + 1) size (acc ++ [v])
    else (pos, acc)

/-- Grammar A's literal run:
`for (i = 0; i < A && pos < size; ++i) { read B; pixels[pos++] = B; }`,
where a failed read sets `pos = SIZE_MAX` and breaks.  Returns the
remaining stream, the new `pos`, and the pixels emitted so far. -/
def rleLiteral (stream : List Nat) (count pos size : Nat) (acc : List Nat) :
    List Nat × Nat × List Nat :=
  match count with
  | 0 => (stream, pos, acc)
  | c + 1 =>
    if pos < size then
      match stream with
      | [] => (stream, SIZEMAX, acc)
      | b :: rest => rleLiteral rest c (pos + 1) size (acc ++ [b])
    else (stream, pos, acc)

/-- Grammar A (`rleCompression` set): `while (pos < size)` read a control
byte `A`; if `A > 128` fill `A - 128` zeros, else copy `A` literal bytes.
A failed control-byte read breaks the loop; a failed literal-byte read
sets `pos = SIZE_MAX` and breaks.  The fuel only bounds the recursion;
each iteration consumes at least one stream byte, so
`fuel = stream.length + 1` never runs out. -/
def decompA : Nat → List Nat → Nat → Nat → List Nat → Nat × List Nat
  | 0, _, pos, _, acc => (pos, acc)
  | fuel + 1, stream, pos, size, acc =>
    if pos < size then
      match stream with
      | [] => (pos, acc)
      | a :: rest =>
        if 128 < a then
          let r := fillRun (a - 128) 0 pos size acc
          decompA fuel rest r.1 size r.2
        else
          let r := rleLiteral rest a pos size acc
          if r.2.1 = SIZEMAX then (r.2.1, r.2.2)
          else decompA fuel r.1 r.2.1 size r.2.2
    else (pos, acc)

/-- Grammar B (`rleCompression` clear): `while (pos < size)` read a
control byte `A`; if `A > 192` read the fill byte `B` and emit `A - 192`
copies of `B`, else emit `A` itself once.  A failed read of `A` or `B`
breaks the loop. -/
def decompB : Nat → List Nat → Nat → Nat → List Nat → Nat × List Nat
  | 0, _, pos, _, acc => (pos, acc)
  | fuel + 1, stream, pos, size, acc =>
    if pos < size then
      match stream with
      | [] => (pos, acc)
      | a :: rest =>
        if 192 < a then
          match rest with
          | [] => (pos, acc)
          | b :: rest2 =>
            let r := fillRun (a - 192) b pos size acc
            decompB fuel rest2 r.1 size r.2
        else
          let r := fillRun 1 a pos size acc
          decompB fuel rest r.1 size r.2
    else (pos, acc)

/-- The decompression stage of `ConvertPID`: run the grammar selected by
the compression flag over the pixel-data stream, returning the final
`pos` and the emitted pixels.  `ConvertPID` then fails unless
`pos = size`. -/
def decodePixels (rle : Bool) (stream : List Nat) (size : Nat) :
    Nat × List Nat :=
  if rle then decompA (stream.length + 1) stream 0 size []
  else decompB (stream.length + 1) stream 0 size []

/-! ## Orientation transform (`ConvertPID`, lines 571-585) -/

/-- The mirror/invert transform: builds the fresh raster `flipped` with
`flipped[y*W + x] = pixels[srcY*W + srcX]` where `srcY = H-1-y` when
invert is set (else `y`) and `srcX = W-1-x` when mirror is set (else
`x`).  Output index `k` corresponds to `y = k / W`, `x = k % W`. -/
def flipRaster (pix : List Nat) (W H : Nat) (mirror invert : Bool) :
    List Nat :=
  (List.range (H * W)).map fun k =>
    let y := k / W
    let x := k % W
    let sy := if invert then H - 1 - y else y
    let sx := if mirror then W - 1 - x else x
    pix.getD (sy * W + sx) 0



/-! ## Destination stream model -/

/-- Host write behavior: for the `k`-th write call of `n` requested
bytes, the number of bytes the host reports written. -/
def Oracle : Type := Nat → Nat → Nat

/-- The oracle of a well-behaved host: every write call writes all
requested bytes. -/
def fullOracle : Oracle := fun _ n => n

/-- State of the destination stream during an encoder run: the bytes
written so far, the log of `(requested, reported)` pairs of the write
calls actually executed, and whether a checked write has failed (after
which the encoder has returned and no further calls happen). -/
structure WState where
  out : List Nat
  log : List (Nat × Nat)
  failed : Bool
deriving DecidableEq

/-- Fresh destination stream. -/
def initW : WState := ⟨[], [], false⟩

/-- One checked write call (the `if (dst.write(...) != n) return 1;`
pattern of `SaveToBMP` / `SaveToTGA`): no-op once a previous call has
failed (the C++ already returned), otherwise asks the oracle and records
the outcome. -/
def wwrite (o : Oracle) (s : WState) (chunk : List Nat) : WState :=
  if s.failed then s
  else
    let got := o s.log.length chunk.length
    if got = chunk.length then
      ⟨s.out ++ chunk, s.log ++ [(chunk.length, got)], false⟩
    else
      ⟨s.out ++ chunk.take got, s.log ++ [(chunk.length, got)], true⟩

/-- Run a sequence of checked writes against a fresh stream. -/
def writeAll (o : Oracle) (chunks : List (List Nat)) : WState :=
  chunks.foldl (wwrite o) initW

/-! ## BMP encoder (`SaveToBMP`, lines 118-221) -/

/-- Palette copy with index 0 forced to black (the transparency baking of
`SaveToBMP` / `SaveToTGA`). -/
def zeroRGB0 : List Color → List Color
  | [] => []
  | c :: t => Color.mk 0 0 0 c.a :: t

/-- One output row: BGR triples for the pixels of source row `y`,
followed by the zero padding up to `rowSize` bytes. -/
def bmpRow (pix : List Nat) (w rowSize y : Nat) (pal : List Color) :
    List Nat :=
  ((List.range w).map fun x =>
    let c := pal.getD (pix.getD (y * w + x) 0) czero
    [c.b, c.g, c.r]).flatten ++ List.replicate (rowSize - 3 * w) 0

/-- The exact sequence of write calls `SaveToBMP` issues: 14-byte file
header and 40-byte info header field by field (little-endian), then the
pixel rows bottom-up. -/
def bmpChunks (pix : List Nat) (w h : Nat) (pal : List Color) :
    List (List Nat) :=
  let rowSize := (3 * w + 3) / 4 * 4
  let imageSize := rowSize * h
  let dataOffset := 14 + 40
  let fileSize := dataOffset + imageSize
  [[66, 77], le32out fileSize, le16out 0, le16out 0, le32out dataOffset,
    le32out 40, le32out w, le32out h, le16out 1, le16out 24, le32out 0,
    le32out imageSize, le32out 0, le32out 0, le32out 0, le32out 0]
    ++ ((List.range h).reverse.map fun y => bmpRow pix w rowSize y pal)

/-- `SaveToBMP`: checked writes of all chunks; returns 1 as soon as any
write reports a short transfer, else 0.  (The trailing `seek_abs(0)`
repositions the stream and is not a write.) -/
def SaveToBMP (o : Oracle) (pix : List Nat) (w h : Nat)
    (pal : List Color) (trans : Bool) : Nat × WState :=
  let pal2 := if trans then zeroRGB0 pal else pal
  let s := writeAll o (bmpChunks pix w h pal2)
  (if s.failed then 1 else 0, s)

/-! ## TGA encoder (`SaveToTGA`, lines 230-310) -/

/-- The exact sequence of write calls `SaveToTGA` issues: the 18-byte
header field by field, 256 B,G,R palette triples, then the pixel rows
top-down. -/
def tgaChunks (pix : List Nat) (w h : Nat) (pal : List Color) :
    List (List Nat) :=
  [[0], [1], [1], le16out 0, le16out 256, [24], le16out 0, le16out 0,
    le16out w, le16out h, [8], [0x20]]
    ++ ((List.range 256).map fun i =>
      let c := pal.getD i czero
      [c.b, c.g, c.r])
    ++ ((List.range h).map fun y => (pix.drop (y * w)).take w)

/-- `SaveToTGA`: checked writes of all chunks, same fail-fast policy as
`SaveToBMP`. -/
def SaveToTGA (o : Oracle) (pix : List Nat) (w h : Nat)
    (pal : List Color) (trans : Bool) : Nat × WState :=
  let pal2 := if trans then zeroRGB0 pal else pal
  let s := writeAll o (tgaChunks pix w h pal2)
  (if s.failed then 1 else 0, s)

/-! ## PNG encoder (`write_PNG_Chunk` lines 94-111, `SaveToPNG` lines 315-428) -/

/-- The PNG output mode (`enum class PNGMode`), selected by the
process-wide `g_default_PNG_Mode` setting. -/
inductive PNGMode where
  | png8
  | png24
  | png32
deriving DecidableEq

/-- The CRC `write_PNG_Chunk` stores: `crc32_png(type, 4)` and, when the
payload is non-empty, chained through `crc32_png(data, length, crc)`. -/
def chunkCrc (ty d : List Nat) : Nat :=
  let c := crc32_png ty 0
  if d.isEmpty then c else crc32_png d c

/-- `write_PNG_Chunk`: appends the big-endian payload length, the 4-byte
type, the payload, and the big-endian CRC to the buffer. -/
def writeChunk (buf ty d : List Nat) : List Nat :=
  buf ++ be32out d.length ++ ty ++ d ++ be32out (chunkCrc ty d)

/-- The 8-byte PNG signature. -/
def pngSignature : List Nat := [0x89, 80, 78, 71, 0x0D, 0x0A, 0x1A, 0x0A]

/-- The color type IHDR stores for each output mode: 3 indexed,
2 true-color RGB, 6 true-color RGBA. -/
def colorType : PNGMode → Nat
  | .png8 => 3
  | .png24 => 2
  | .png32 => 6

/-- The 13 IHDR payload bytes: big-endian width and height, bit depth 8,
color type, compression 0, filter 0, interlace 0. -/
def ihdrPayload (w h : Nat) (mode : PNGMode) : List Nat :=
  be32out w ++ be32out h ++ [8, colorType mode, 0, 0, 0]

/-- The 768-byte PLTE payload: R,G,B of the 256 palette entries. -/
def pltePayload (pal : List Color) : List Nat :=
  ((List.range 256).map fun i =>
    let c := pal.getD i czero
    [c.r, c.g, c.b]).flatten

/-- The 256-byte tRNS payload: `memset(trns, 255, 256); trns[0] = 0`. -/
def trnsPayload : List Nat := 0 :: List.replicate 255 255

/-- The uncompressed IDAT scanline stream: per row a filter byte 0
followed by, depending on mode, the raw indices, R,G,B expanded from the
palette, or R,G,B,A with alpha 0 exactly for index-0 pixels when
transparency is enabled. -/
def scanlines (mode : PNGMode) (pix : List Nat) (w h : Nat)
    (pal : List Color) (trans : Bool) : List Nat :=
  match mode with
  | .png8 =>
    ((List.range h).map fun y => 0 :: (pix.drop (y * w)).take w).flatten
  | .png24 =>
    ((List.range h).map fun y =>
      0 :: ((List.range w).map fun x =>
        let c := pal.getD (pix.getD (y * w + x) 0) czero
        [c.r, c.g, c.b]).flatten).flatten
  | .png32 =>
    ((List.range h).map fun y =>
      0 :: ((List.range w).map fun x =>
        let idx := pix.getD (y * w + x) 0
        let c := pal.getD idx czero
        [c.r, c.g, c.b, if trans ∧ idx = 0 then 0 else 255]).flatten).flatten

/-- The in-memory buffer `SaveToPNG` assembles: signature, IHDR, then
PLTE (and tRNS when transparency is enabled) only in 8-bit mode, then the
IDAT holding the deflated scanline stream, then IEND. -/
def buildPNG (mode : PNGMode) (defl : List Nat → List Nat)
    (pix : List Nat) (w h : Nat) (pal : List Color) (trans : Bool) :
    List Nat :=
  let png1 := writeChunk pngSignature [73, 72, 68, 82] (ihdrPayload w h mode)
  let png2 :=
    if mode = PNGMode.png8 then
      let p := writeChunk png1 [80, 76, 84, 69] (pltePayload pal)
      if trans then writeChunk p [116, 82, 78, 83] trnsPayload else p
    else png1
  let png3 := writeChunk png2 [73, 68, 65, 84]
    (defl (scanlines mode pix w h pal trans))
  writeChunk png3 [73, 69, 78, 68] []

/-- `SaveToPNG`: assembles the buffer and issues a single write call
whose reported count is not checked; the function then returns 0.
(The zlib deflate stage is the external `defl` parameter.) -/
def SaveToPNG (o : Oracle) (mode : PNGMode) (defl : List Nat → List Nat)
    (pix : List Nat) (w h : Nat) (pal : List Color) (trans : Bool) :
    Nat × WState :=
  let png := buildPNG mode defl pix w h pal trans
  let got := o 0 png.length
  (0, ⟨png.take got, [(png.length, got)], false⟩)

/-! ## Top-level conversion (`ConvertPID`, lines 433-625) -/

/-- The data `ConvertPID` derives from a validated header: the raw flags
word, the (positive) dimensions, and `pixel_count`, the `size_t` product
`Width * Height` — 32-bit arithmetic on the x86 target, hence the
reduction modulo `2^32`. -/
structure PidInfo where
  flags : Nat
  width : Nat
  height : Nat
  pixelCount : Nat
deriving DecidableEq

/-- Header read and validation (lines 443-469): fail when fewer than 32
bytes can be read, when `header.ID != 10`, when `Width <= 0` or
`Height <= 0` (signed comparisons), or when `pixel_count > 2^30`. -/
def parseHeader (src : List Nat) : Option PidInfo :=
  if src.length < 32 then none
  else
    let idv := le32 (src.getD 0 0) (src.getD 1 0) (src.getD 2 0) (src.getD 3 0)
    let flags := le32 (src.getD 4 0) (src.getD 5 0) (src.getD 6 0) (src.getD 7 0)
    let w := toInt32 (le32 (src.getD 8 0) (src.getD 9 0) (src.getD 10 0) (src.getD 11 0))
    let h := toInt32 (le32 (src.getD 12 0) (src.getD 13 0) (src.getD 14 0) (src.getD 15 0))
    if toInt32 idv ≠ 10 then none
    else if w ≤ 0 ∨ h ≤ 0 then none
    else
      let pc := w.toNat * h.toNat % 2 ^ 32
      if 2 ^ 30 < pc then none
      else some ⟨flags, w.toNat, h.toNat, pc⟩

/-- Palette resolution (lines 477-507): when flag bit 7 is set, seek to
`end - 768` (fail when that position is negative) and read 256 R,G,B
triples, forcing alpha 255 except entry 0 when transparency is on;
otherwise copy `defaultPalette`, zeroing entry 0's alpha when
transparency is on. -/
def resolvePalette (src : List Nat) (flags : Nat) : Option (List Color) :=
  let trans := flags.testBit 0
  if flags.testBit 7 then
    if (src.length : Int) - 768 < 0 then none
    else
      let base := src.length - 768
      some ((List.range 256).map fun i =>
        Color.mk (src.getD (base + 3 * i) 0) (src.getD (base + 3 * i + 1) 0)
          (src.getD (base + 3 * i + 2) 0)
          (if trans ∧ i = 0 then 0 else 255))
  else
    some (if trans then
      match defaultPalette with
      | [] => []
      | c :: t => Color.mk c.r c.g c.b 0 :: t
    else defaultPalette)

/-- `ConvertPID`: header parsing and validation, palette resolution, seek
back to offset 32, decompression with the grammar selected by flag bit 5
(failing unless exactly `pixel_count` indices were produced), the
mirror/invert transform when flag bit 3 or 4 is set, and dispatch on the
conversion token.  Returns the C++ result (0 success, 1 failure) and the
destination-stream state. -/
def convertPID (o : Oracle) (src : List Nat) (cnv : String)
    (mode : PNGMode) (defl : List Nat → List Nat) : Nat × WState :=
  match parseHeader src with
  | none => (1, initW)
  | some info =>
    match resolvePalette src info.flags with
    | none => (1, initW)
    | some pal =>
      let d := decodePixels (info.flags.testBit 5) (src.drop 32) info.pixelCount
      if d.1 ≠ info.pixelCount then (1, initW)
      else
        let pix :=
          if info.flags.testBit 3 ∨ info.flags.testBit 4 then
            flipRaster d.2 info.width info.height
              (info.flags.testBit 3) (info.flags.testBit 4)
          else d.2
        if cnv = "BMP" then
          SaveToBMP o pix info.width info.height pal (info.flags.testBit 0)
        else if cnv = "TGA8" ∨ cnv = "TGA" then
          SaveToTGA o pix info.width info.height pal (info.flags.testBit 0)
        else if cnv = "PNG" then
          SaveToPNG o mode defl pix info.width info.height pal
            (info.flags.testBit 0)
        else (1, initW)

/-- 32-byte PID header with the given field values (little-endian fields,
four reserved words zero). -/
def mkHeader (idv flags w h : Nat) : List Nat :=
  le32out idv ++ le32out flags ++ le32out w ++ le32out h ++ List.replicate 16 0

/-! ## Concrete inputs used by the claim theorems -/

/-- The spec's concrete scenario: a 1x1 PID, Flags 0 (no transparency, no
RLE, default palette), single pixel-data byte 0x05. -/
def pidC4src : List Nat := mkHeader 10 0 1 1 ++ [5]

/-- The destination bytes `ConvertPID` writes for `pidC4src` as BMP under
a well-behaved host. -/
def bmpC4out : List Nat :=
  (convertPID fullOracle pidC4src "BMP" PNGMode.png8 id).2.out

/-- Header with Width = Height = 65536: the mathematical pixel product is
2^32, which the 32-bit `size_t` multiplication wraps to 0. -/
def pidC5src : List Nat := mkHeader 10 0 65536 65536

/-- A host whose write calls always report 0 bytes written. -/
def shortOracle : Oracle := fun _ _ => 0

/-- A `SaveToPNG` run (32-bit mode, identity deflate, 1x1 raster) against
the always-short host. -/
def pngShortRun : Nat × WState :=
  SaveToPNG shortOracle PNGMode.png32 id [0] 1 1 defaultPalette false

/-! ## Helper lemmas: fill and literal runs -/

lemma fillRun_full (c v pos size : Nat) (acc : List Nat)
    (h : pos + c ≤ size) :
    fillRun c v pos size acc = (pos + c, acc ++ List.replicate c v) := by
  induction c generalizing pos acc with
  | zero => simp [fillRun]
  | succ n ih =>
    have hlt : pos < size := by omega
    rw [fillRun, if_pos hlt, ih (pos + 1) (acc ++ [v]) (by omega)]
    refine Prod.ext (by omega) ?_
    simp [List.replicate_succ]

lemma fillRun_trunc (c v pos size : Nat) (acc : List Nat)
    (h1 : pos ≤ size) (h2 : size ≤ pos + c) :
    fillRun c v pos size acc = (size, acc ++ List.replicate (size - pos) v) := by
  induction c generalizing pos acc with
  | zero =>
    have : size = pos := by omega
    simp [fillRun, this]
  | succ n ih =>
    by_cases hlt : pos < size
    · rw [fillRun, if_pos hlt, ih (pos + 1) (acc ++ [v]) (by omega) (by omega)]
      refine Prod.ext rfl ?_
      simp only [List.append_assoc, List.singleton_append]
      congr 1
      have hsz : size - pos = (size - (pos + 1)) + 1 := by omega
      rw [hsz, List.replicate_succ]
    · have : size = pos := by omega
      rw [fillRun, if_neg hlt]
      simp [this]

lemma fillRun_inv (c v pos size : Nat) (acc : List Nat)
    (hlen : acc.length = pos) (hle : pos ≤ size) :
    (fillRun c v pos size acc).2.length = (fillRun c v pos size acc).1 ∧
      (fillRun c v pos size acc).1 ≤ size := by
  induction c generalizing pos acc with
  | zero => simp [fillRun, hlen, hle]
  | succ n ih =>
    by_cases hlt : pos < size
    · rw [fillRun, if_pos hlt]
      exact ih (pos + 1) (acc ++ [v]) (by simp [hlen]) (by omega)
    · rw [fillRun, if_neg hlt]
      exact ⟨hlen, hle⟩

lemma rleLiteral_stop (s : List Nat) (c pos size : Nat) (acc : List Nat)
    (h : ¬ pos < size) : rleLiteral s c pos size acc = (s, pos, acc) := by
  cases c with
  | zero => simp [rleLiteral]
  | succ n => rw [rleLiteral.eq_def]; simp [h]

lemma rleLiteral_take (c : Nat) (s : List Nat) (pos size : Nat)
    (acc : List Nat) (h1 : pos + c ≤ size) (h2 : c ≤ s.length) :
    rleLiteral s c pos size acc = (s.drop c, pos + c, acc ++ s.take c) := by
  induction c generalizing s pos acc with
  | zero => simp [rleLiteral]
  | succ n ih =>
    have hlt : pos < size := by omega
    match s with
    | [] => simp at h2
    | b :: rest =>
      rw [rleLiteral, if_pos hlt]
      rw [ih rest (pos + 1) (acc ++ [b]) (by omega) (by simpa using h2)]
      simp only [List.drop_succ_cons, List.take_succ_cons, List.append_assoc,
        List.singleton_append, Prod.mk.injEq, true_and, and_true, eq_self_iff_true]
      omega

lemma rleLiteral_exhaust (s : List Nat) (c pos size : Nat)
    (acc : List Nat) (h1 : s.length < c) (h2 : pos + s.length < size) :
    rleLiteral s c pos size acc = ([], SIZEMAX, acc ++ s) := by
  induction s generalizing c pos acc with
  | nil =>
    match c with
    | 0 => simp at h1
    | n + 1 =>
      have hlt : pos < size := by simpa using h2
      simp [rleLiteral, if_pos hlt]
  | cons b rest ih =>
    match c with
    | 0 => simp at h1
    | n + 1 =>
      have hlt : pos < size := by simp at h2; omega
      rw [rleLiteral, if_pos hlt]
      rw [ih n (pos + 1) (acc ++ [b]) (by simpa using h1)
        (by simp at h2 ⊢; omega)]
      simp

lemma rleLiteral_fillbuf (bs cs : List Nat) (c pos size : Nat)
    (acc : List Nat) (h1 : bs.length = size - pos) (h2 : pos ≤ size)
    (h3 : bs.length < c) :
    rleLiteral (bs ++ cs) c pos size acc = (cs, size, acc ++ bs) := by
  induction bs generalizing c pos acc with
  | nil =>
    have : size = pos := by simp at h1; omega
    match c with
    | 0 => simp at h3
    | n + 1 =>
      rw [rleLiteral_stop _ _ _ _ _ (by omega)]
      simp [this]
  | cons b rest ih =>
    have hlt : pos < size := by simp at h1; omega
    match c with
    | 0 => simp at h3
    | n + 1 =>
      rw [List.cons_append, rleLiteral, if_pos hlt]
      rw [ih n (pos + 1) (acc ++ [b]) (by simp at h1 ⊢; omega) (by omega)
        (by simp at h3 ⊢; omega)]
      simp

lemma rleLiteral_inv (c : Nat) (s : List Nat) (pos size : Nat)
    (acc : List Nat) (hlen : acc.length = pos) (hle : pos ≤ size) :
    ((rleLiteral s c pos size acc).2.1 = SIZEMAX ∧
       (rleLiteral s c pos size acc).2.2.length ≤ size) ∨
      ((rleLiteral s c pos size acc).2.2.length =
         (rleLiteral s c pos size acc).2.1 ∧
        (rleLiteral s c pos size acc).2.1 ≤ size) := by
  induction c generalizing s pos acc with
  | zero => right; simp [rleLiteral, hlen, hle]
  | succ n ih =>
    by_cases hlt : pos < size
    · match s with
      | [] => left; rw [rleLiteral, if_pos hlt]; exact ⟨rfl, by simp [hlen]; omega⟩
      | b :: rest =>
        rw [rleLiteral, if_pos hlt]
        exact ih rest (pos + 1) (acc ++ [b]) (by simp [hlen]) (by omega)
    · right; rw [rleLiteral_stop _ _ _ _ _ hlt]; exact ⟨hlen, hle⟩

/-! ## Helper lemmas: the two decoding grammars -/

lemma decompA_stop (fuel : Nat) (s : List Nat) (pos size : Nat)
    (acc : List Nat) (h : ¬ pos < size) :
    decompA fuel s pos size acc = (pos, acc) := by
  cases fuel with
  | zero => rfl
  | succ n => rw [decompA.eq_def]; simp [h]

lemma decompB_stop (fuel : Nat) (s : List Nat) (pos size : Nat)
    (acc : List Nat) (h : ¬ pos < size) :
    decompB fuel s pos size acc = (pos, acc) := by
  cases fuel with
  | zero => rfl
  | succ n => rw [decompB.eq_def]; simp [h]

lemma decompA_fill_step (fuel a : Nat) (rest : List Nat) (pos size : Nat)
    (acc : List Nat) (ha : 128 < a) (hroom : pos + (a - 128) ≤ size) :
    decompA (fuel + 1) (a :: rest) pos size acc
      = decompA fuel rest (pos + (a - 128)) size
          (acc ++ List.replicate (a - 128) 0) := by
  have hlt : pos < size := by omega
  rw [decompA.eq_def]
  simp only [hlt, if_true, if_pos ha, fillRun_full _ _ _ _ _ hroom]

lemma decompA_fill_trunc (fuel a : Nat) (rest : List Nat) (pos size : Nat)
    (acc : List Nat) (ha : 128 < a) (hlt : pos < size)
    (hover : size ≤ pos + (a - 128)) :
    decompA (fuel + 1) (a :: rest) pos size acc
      = (size, acc ++ List.replicate (size - pos) 0) := by
  rw [decompA.eq_def]
  simp only [hlt, if_true, if_pos ha,
    fillRun_trunc _ _ _ _ _ (Nat.le_of_lt hlt) hover]
  exact decompA_stop fuel rest size size _ (Nat.lt_irrefl size)

lemma decompA_lit_step (fuel a : Nat) (rest : List Nat) (pos size : Nat)
    (acc : List Nat) (ha : a ≤ 128) (hlt : pos < size)
    (hroom : pos + a ≤ size) (hbytes : a ≤ rest.length)
    (hsz : size ≤ 2 ^ 30) :
    decompA (fuel + 1) (a :: rest) pos size acc
      = decompA fuel (rest.drop a) (pos + a) size (acc ++ rest.take a) := by
  rw [decompA.eq_def]
  simp only [hlt, if_true, if_neg (by omega : ¬ 128 < a),
    rleLiteral_take _ _ _ _ _ hroom hbytes]
  rw [if_neg (by simp [SIZEMAX]; omega)]

lemma decompA_lit_fillbuf (fuel a : Nat) (bs cs : List Nat)
    (pos size : Nat) (acc : List Nat) (ha : a ≤ 128) (hlt : pos < size)
    (hsz : size ≤ 2 ^ 30) (hbs : bs.length = size - pos)
    (hcount : bs.length < a) :
    decompA (fuel + 1) (a :: (bs ++ cs)) pos size acc = (size, acc ++ bs) := by
  rw [decompA.eq_def]
  simp only [hlt, if_true, if_neg (by omega : ¬ 128 < a),
    rleLiteral_fillbuf _ _ _ _ _ _ hbs (Nat.le_of_lt hlt) hcount]
  rw [if_neg (by simp [SIZEMAX]; omega)]
  exact decompA_stop fuel cs size size _ (Nat.lt_irrefl size)

lemma decompA_exhaust (fuel a : Nat) (rest : List Nat) (pos size : Nat)
    (acc : List Nat) (ha : a ≤ 128) (hrest : rest.length < a)
    (hshort : pos + rest.length < size) :
    decompA (fuel + 1) (a :: rest) pos size acc = (SIZEMAX, acc ++ rest) := by
  have hlt : pos < size := by omega
  rw [decompA.eq_def]
  simp only [hlt, if_true, if_neg (by omega : ¬ 128 < a),
    rleLiteral_exhaust _ _ _ _ _ hrest hshort]

lemma decompB_run_step (fuel a b : Nat) (rest : List Nat) (pos size : Nat)
    (acc : List Nat) (ha : 192 < a) (hroom : pos + (a - 192) ≤ size) :
    decompB (fuel + 1) (a :: b :: rest) pos size acc
      = decompB fuel rest (pos + (a - 192)) size
          (acc ++ List.replicate (a - 192) b) := by
  have hlt : pos < size := by omega
  rw [decompB.eq_def]
  simp only [hlt, if_true, if_pos ha, fillRun_full _ _ _ _ _ hroom]

lemma decompB_run_trunc (fuel a b : Nat) (rest : List Nat) (pos size : Nat)
    (acc : List Nat) (ha : 192 < a) (hlt : pos < size)
    (hover : size ≤ pos + (a - 192)) :
    decompB (fuel + 1) (a :: b :: rest) pos size acc
      = (size, acc ++ List.replicate (size - pos) b) := by
  rw [decompB.eq_def]
  simp only [hlt, if_true, if_pos ha,
    fillRun_trunc _ _ _ _ _ (Nat.le_of_lt hlt) hover]
  exact decompB_stop fuel rest size size _ (Nat.lt_irrefl size)

lemma decompB_lit_step (fuel a : Nat) (rest : List Nat) (pos size : Nat)
    (acc : List Nat) (ha : a ≤ 192) (hlt : pos < size) :
    decompB (fuel + 1) (a :: rest) pos size acc
      = decompB fuel rest (pos + 1) size (acc ++ [a]) := by
  rw [decompB.eq_def]
  simp only [hlt, if_true, if_neg (by omega : ¬ 192 < a)]
  have : fillRun 1 a pos size acc = (pos + 1, acc ++ [a]) :=
    fillRun_full 1 a pos size acc (by omega)
  simp only [this]

lemma decompA_inv (fuel : Nat) :
    ∀ (s : List Nat) (pos size : Nat) (acc : List Nat),
      acc.length = pos → pos ≤ size →
      ((decompA fuel s pos size acc).1 = SIZEMAX ∧
        (decompA fuel s pos size acc).2.length ≤ size) ∨
      ((decompA fuel s pos size acc).2.length
          = (decompA fuel s pos size acc).1 ∧
        (decompA fuel s pos size acc).1 ≤ size) := by
  induction fuel with
  | zero => intro s pos size acc h1 h2; right; simp [decompA, h1, h2]
  | succ n ih =>
    intro s pos size acc h1 h2
    by_cases hlt : pos < size
    · match s with
      | [] => right; rw [decompA.eq_def]; simp [hlt, h1, h2]
      | a :: rest =>
        rw [decompA.eq_def]
        simp only [hlt, if_true]
        by_cases ha : 128 < a
        · rw [if_pos ha]
          obtain ⟨hl, hs⟩ := fillRun_inv (a - 128) 0 pos size acc h1 h2
          exact ih rest _ size _ hl hs
        · rw [if_neg ha]
          rcases rleLiteral_inv a rest pos size acc h1 h2 with
            ⟨hmax, hlen⟩ | ⟨hlen, hle⟩
          · rw [if_pos hmax]; left; exact ⟨hmax, hlen⟩
          · by_cases hcond : (rleLiteral rest a pos size acc).2.1 = SIZEMAX
            · rw [if_pos hcond]; left
              exact ⟨hcond, le_of_eq_of_le hlen hle⟩
            · rw [if_neg hcond]; exact ih _ _ size _ hlen hle
    · rw [decompA_stop _ _ _ _ _ hlt]; right; simp [h1, h2]

lemma decompB_exact (fuel : Nat) :
    ∀ (s : List Nat) (pos size : Nat) (acc : List Nat),
      acc.length = pos → pos ≤ size →
      (decompB fuel s pos size acc).2.length
          = (decompB fuel s pos size acc).1 ∧
        (decompB fuel s pos size acc).1 ≤ size := by
  induction fuel with
  | zero => intro s pos size acc h1 h2; simp [decompB, h1, h2]
  | succ n ih =>
    intro s pos size acc h1 h2
    by_cases hlt : pos < size
    · match s with
      | [] => rw [decompB.eq_def]; simp [hlt, h1, h2]
      | a :: rest =>
        rw [decompB.eq_def]
        simp only [hlt, if_true]
        by_cases ha : 192 < a
        · rw [if_pos ha]
          match rest with
          | [] => simp [h1, h2]
          | b :: rest2 =>
            obtain ⟨hl, hs⟩ := fillRun_inv (a - 192) b pos size acc h1 h2
            exact ih rest2 _ size _ hl hs
        · rw [if_neg ha]
          obtain ⟨hl, hs⟩ := fillRun_inv 1 a pos size acc h1 h2
          exact ih rest _ size _ hl hs
    · rw [decompB_stop _ _ _ _ _ hlt]; simp [h1, h2]

lemma decodePixels_length_le (rle : Bool) (stream : List Nat) (size : Nat) :
    (decodePixels rle stream size).2.length ≤ size := by
  unfold decodePixels
  cases rle with
  | true =>
    simp only [if_true]
    rcases decompA_inv (stream.length + 1) stream 0 size [] rfl
      (Nat.zero_le size) with ⟨_, hl⟩ | ⟨hl, hs⟩
    · exact hl
    · exact le_of_eq_of_le hl hs
  | false =>
    rw [if_neg (by simp)]
    obtain ⟨hl, hs⟩ := decompB_exact (stream.length + 1) stream 0 size [] rfl
      (Nat.zero_le size)
    exact le_of_eq_of_le hl hs

lemma decodePixels_exact (rle : Bool) (stream : List Nat) (size : Nat)
    (hsz : size ≤ 2 ^ 30)
    (h : (decodePixels rle stream size).1 = size) :
    (decodePixels rle stream size).2.length = size := by
  unfold decodePixels at *
  cases rle with
  | true =>
    simp only [if_true] at h ⊢
    rcases decompA_inv (stream.length + 1) stream 0 size [] rfl
      (Nat.zero_le size) with ⟨hmax, _⟩ | ⟨hl, _⟩
    · rw [h] at hmax; simp [SIZEMAX] at hmax; omega
    · rw [hl, h]
  | false =>
    rw [if_neg (by simp)] at h ⊢
    obtain ⟨hl, _⟩ := decompB_exact (stream.length + 1) stream 0 size [] rfl
      (Nat.zero_le size)
    rw [hl, h]

/-! ## Helper lemmas: top-level stages -/

lemma convertPID_success_decode (o : Oracle) (src : List Nat) (cnv : String)
    (mode : PNGMode) (defl : List Nat → List Nat) (info : PidInfo)
    (hp : parseHeader src = some info)
    (hc : (convertPID o src cnv mode defl).1 = 0) :
    (decodePixels (info.flags.testBit 5) (src.drop 32) info.pixelCount).1
      = info.pixelCount := by
  unfold convertPID at hc
  rw [hp] at hc
  simp only at hc
  cases hpal : resolvePalette src info.flags with
  | none => rw [hpal] at hc; simp at hc
  | some pal =>
    rw [hpal] at hc
    simp only at hc
    by_cases hd : (decodePixels (info.flags.testBit 5) (src.drop 32)
        info.pixelCount).1 ≠ info.pixelCount
    · rw [if_pos hd] at hc; simp at hc
    · exact not_ne_iff.mp hd

lemma convertPID_decode_fail (o : Oracle) (src : List Nat) (cnv : String)
    (mode : PNGMode) (defl : List Nat → List Nat) (info : PidInfo)
    (hp : parseHeader src = some info)
    (hd : (decodePixels (info.flags.testBit 5) (src.drop 32)
        info.pixelCount).1 ≠ info.pixelCount) :
    (convertPID o src cnv mode defl).1 = 1 := by
  unfold convertPID
  rw [hp]
  simp only
  cases hpal : resolvePalette src info.flags with
  | none => simp [hpal]
  | some pal => simp [hpal, hd]

lemma wwrite_full (o : Oracle) (ho : ∀ k n, o k n = n) (s : WState)
    (c : List Nat) (h : s.failed = false) : (wwrite o s c).failed = false := by
  simp [wwrite, h, ho]

lemma writeAll_full_ok (o : Oracle) (ho : ∀ k n, o k n = n)
    (chunks : List (List Nat)) :
    ∀ s : WState, s.failed = false →
      (chunks.foldl (wwrite o) s).failed = false := by
  induction chunks with
  | nil => intro s h; simpa using h
  | cons c t ih => intro s h; exact ih _ (wwrite_full o ho s c h)

lemma wwrite_log_inv (o : Oracle) (s : WState) (c : List Nat)
    (hs : s.failed = false → ∀ e ∈ s.log, e.2 = e.1)
    (hw : (wwrite o s c).failed = false) :
    ∀ e ∈ (wwrite o s c).log, e.2 = e.1 := by
  by_cases hfail : s.failed
  · rw [wwrite, if_pos hfail] at hw
    simp [hfail] at hw
  · have hfail' : s.failed = false := by simpa using hfail
    rw [wwrite, if_neg (by simp [hfail'])] at hw ⊢
    by_cases hgot : o s.log.length c.length = c.length
    · rw [if_pos hgot] at hw ⊢
      intro e he
      simp only [List.mem_append, List.mem_singleton] at he
      rcases he with he | he
      · exact hs hfail' e he
      · rw [he]; exact hgot
    · rw [if_neg hgot] at hw
      simp at hw

lemma writeAll_log_inv (o : Oracle) (chunks : List (List Nat)) :
    ∀ s : WState, (s.failed = false → ∀ e ∈ s.log, e.2 = e.1) →
      (chunks.foldl (wwrite o) s).failed = false →
      ∀ e ∈ (chunks.foldl (wwrite o) s).log, e.2 = e.1 := by
  induction chunks with
  | nil => intro s hs; exact hs
  | cons c t ih =>
    intro s hs
    exact ih (wwrite o s c) (wwrite_log_inv o s c hs)

/-! ## Helper lemmas: orientation transform -/

lemma flipRaster_length (pix : List Nat) (W H : Nat) (m i : Bool) :
    (flipRaster pix W H m i).length = H * W := by
  simp [flipRaster]

lemma flipRaster_getD (pix : List Nat) (W H : Nat) (m i : Bool)
    (y x : Nat) (hy : y < H) (hx : x < W) :
    (flipRaster pix W H m i).getD (y * W + x) 0
      = pix.getD ((if i then H - 1 - y else y) * W
          + (if m then W - 1 - x else x)) 0 := by
  have hW : 0 < W := Nat.lt_of_le_of_lt (Nat.zero_le x) hx
  have hk : y * W + x < H * W := by
    calc y * W + x < y * W + W := by omega
    _ = (y + 1) * W := by ring
    _ ≤ H * W := Nat.mul_le_mul_right W hy
  have hdiv : (y * W + x) / W = y := by
    rw [Nat.add_comm, Nat.add_mul_div_right _ _ hW, Nat.div_eq_of_lt hx,
      Nat.zero_add]
  have hmod : (y * W + x) % W = x := by
    rw [Nat.add_comm, Nat.add_mul_mod_self_right, Nat.mod_eq_of_lt hx]
  rw [flipRaster, List.getD_eq_getD_get?, List.get?_eq_getElem?,
    List.getElem?_map, List.getElem?_range hk]
  simp [hdiv, hmod]

/-! ## Helper lemmas: CRC-32 and chunk framing -/

lemma xor_xor_cancel (x M : Nat) : (x ^^^ M) ^^^ M = x := by
  rw [Nat.xor_assoc, Nat.xor_self, Nat.xor_zero]

lemma crc32_png_append (ty d : List Nat) (hty : ty ≠ []) (hd : d ≠ []) :
    crc32_png d (crc32_png ty 0) = crc32_png (ty ++ d) 0 := by
  unfold crc32_png
  rw [if_neg (by simpa using hd), if_neg (by simpa using hty),
    if_neg (by simp [hty])]
  rw [xor_xor_cancel, List.foldl_append]

lemma chunkCrc_concat (ty d : List Nat) (hty : ty ≠ []) :
    chunkCrc ty d = crc32_png (ty ++ d) 0 := by
  unfold chunkCrc
  cases d with
  | nil => simp
  | cons b t =>
    rw [if_neg (by simp)]
    exact crc32_png_append ty (b :: t) hty (by simp)

lemma writeChunk_layout (buf ty d : List Nat) (hty : ty ≠ []) :
    writeChunk buf ty d
      = buf ++ be32out d.length ++ ty ++ d
          ++ be32out (crc32_png (ty ++ d) 0) := by
  rw [writeChunk, chunkCrc_concat ty d hty]

lemma parseHeader_pc_le (src : List Nat) (info : PidInfo)
    (hp : parseHeader src = some info) : info.pixelCount ≤ 2 ^ 30 := by
  simp only [parseHeader] at hp
  split_ifs at hp with h1 h2 h3 h4
  all_goals
    first
      | exact Option.noConfusion hp
      | (injection hp with h5; rw [← h5]; exact Nat.not_lt.mp h4)

lemma writeAll_log_ok (o : Oracle) (chunks : List (List Nat))
    (hf : (writeAll o chunks).failed = false) :
    ∀ e ∈ (writeAll o chunks).log, e.2 = e.1 :=
  writeAll_log_inv o chunks initW (by intro _ e he; simp [initW] at he) hf

lemma SaveToBMP_fullOracle (pix : List Nat) (w h : Nat) (pal : List Color)
    (trans : Bool) : (SaveToBMP fullOracle pix w h pal trans).1 = 0 := by
  have hok : (writeAll fullOracle
      (bmpChunks pix w h (if trans then zeroRGB0 pal else pal))).failed
        = false :=
    writeAll_full_ok fullOracle (fun _ _ => rfl) _ initW rfl
  unfold SaveToBMP
  simp [hok]

lemma convertPID_decode_ok_bmp (src : List Nat) (mode : PNGMode)
    (defl : List Nat → List Nat) (info : PidInfo) (pal : List Color)
    (hp : parseHeader src = some info)
    (hpal : resolvePalette src info.flags = some pal)
    (hd : (decodePixels (info.flags.testBit 5) (src.drop 32)
        info.pixelCount).1 = info.pixelCount) :
    (convertPID fullOracle src "BMP" mode defl).1 = 0 := by
  unfold convertPID
  rw [hp]
  simp only
  rw [hpal]
  simp [hd, SaveToBMP_fullOracle]

lemma buildPNG_layout (mode : PNGMode) (defl : List Nat → List Nat)
    (pix : List Nat) (w h : Nat) (pal : List Color) (trans : Bool) :
    buildPNG mode defl pix w h pal trans
      = pngSignature
        ++ writeChunk [] [73, 72, 68, 82] (ihdrPayload w h mode)
        ++ (if mode = PNGMode.png8 then
            writeChunk [] [80, 76, 84, 69] (pltePayload pal)
              ++ (if trans then
                  writeChunk [] [116, 82, 78, 83] trnsPayload
                else [])
          else [])
        ++ writeChunk [] [73, 68, 65, 84]
            (defl (scanlines mode pix w h pal trans))
        ++ writeChunk [] [73, 69, 78, 68] [] := by
  unfold buildPNG writeChunk
  by_cases hm : mode = PNGMode.png8 <;> by_cases ht : trans <;>
    simp [hm, ht, List.append_assoc]

/-! ## Claim theorems -/

/-- C1: for every valid PID header, `ConvertPID` succeeds only if the
selected decompressor produced exactly `pixel_count = width*height`
palette indices (conjunct 1: success implies final `pos` and the number
of emitted indices both equal `pixel_count`); a grammar-A literal run
whose declared count exceeds the bytes remaining in the stream while the
output buffer still has room ends the decode with `pos = SIZE_MAX ≠ size`
(conjunct 2); and whenever the decode ends with `pos ≠ pixel_count` the
whole conversion returns failure instead of truncating or padding
(conjunct 3). -/
theorem C1_decompress_exact_or_fail :
    (∀ (o : Oracle) (src : List Nat) (cnv : String) (mode : PNGMode)
        (defl : List Nat → List Nat) (info : PidInfo),
      parseHeader src = some info →
      (convertPID o src cnv mode defl).1 = 0 →
      (decodePixels (info.flags.testBit 5) (src.drop 32)
            info.pixelCount).1 = info.pixelCount ∧
        (decodePixels (info.flags.testBit 5) (src.drop 32)
            info.pixelCount).2.length = info.pixelCount) ∧
    (∀ (fuel a : Nat) (rest : List Nat) (pos size : Nat) (acc : List Nat),
      a ≤ 128 → rest.length < a → pos + rest.length < size →
      size ≤ 2 ^ 30 →
      decompA (fuel + 1) (a :: rest) pos size acc = (SIZEMAX, acc ++ rest) ∧
        SIZEMAX ≠ size) ∧
    (∀ (o : Oracle) (src : List Nat) (cnv : String) (mode : PNGMode)
        (defl : List Nat → List Nat) (info : PidInfo),
      parseHeader src = some info →
      (decodePixels (info.flags.testBit 5) (src.drop 32)
          info.pixelCount).1 ≠ info.pixelCount →
      (convertPID o src cnv mode defl).1 = 1) := by
  refine ⟨?_, ?_, convertPID_decode_fail⟩
  · intro o src cnv mode defl info hp hc
    have h1 := convertPID_success_decode o src cnv mode defl info hp hc
    exact ⟨h1, decodePixels_exact _ _ _ (parseHeader_pc_le src info hp) h1⟩
  · intro fuel a rest pos size acc ha hr hs hsz
    refine ⟨decompA_exhaust fuel a rest pos size acc ha hr hs, ?_⟩
    simp only [SIZEMAX]
    omega

/-- Witness for C1: conjunct 1 at the 1x1 scenario, conjunct 2 at a
2-byte literal run with only one byte left, conjunct 3 at a 3-pixel RLE
image whose literal run is truncated mid-stream. -/
theorem C1_decompress_exact_or_fail_witness :
    ((decodePixels false [5] 1).1 = 1 ∧
      (decodePixels false [5] 1).2.length = 1) ∧
    (decompA 1 [2, 7] 0 3 [] = (SIZEMAX, [7]) ∧ SIZEMAX ≠ 3) ∧
    (convertPID fullOracle (mkHeader 10 32 3 1 ++ [2, 7]) "BMP"
        PNGMode.png8 id).1 = 1 := by
  refine ⟨?_, ?_, ?_⟩
  · exact C1_decompress_exact_or_fail.1 fullOracle pidC4src "BMP"
      PNGMode.png8 id ⟨0, 1, 1, 1⟩ (by decide) (by decide)
  · exact C1_decompress_exact_or_fail.2.1 0 2 [7] 0 3 [] (by decide)
      (by decide) (by decide) (by decide)
  · exact C1_decompress_exact_or_fail.2.2 fullOracle
      (mkHeader 10 32 3 1 ++ [2, 7]) "BMP" PNGMode.png8 id
      ⟨32, 3, 1, 3⟩ (by decide) (by decide)

/-- C2: grammar A (RLE flag set): a control byte `A > 128` emits `A - 128`
zeros without consuming a data byte (conjunct 1); `A ≤ 128` reads `A`
stream bytes and emits them verbatim, `A = 0` emitting nothing
(conjunct 2); and on a 2-pixel raster the stream consisting solely of
0x82 decodes to exactly two zero pixels (conjunct 3). -/
theorem C2_grammarA_decoding :
    (∀ (fuel a : Nat) (rest : List Nat) (pos size : Nat) (acc : List Nat),
      128 < a → pos + (a - 128) ≤ size →
      decompA (fuel + 1) (a :: rest) pos size acc
        = decompA fuel rest (pos + (a - 128)) size
            (acc ++ List.replicate (a - 128) 0)) ∧
    (∀ (fuel a : Nat) (rest : List Nat) (pos size : Nat) (acc : List Nat),
      a ≤ 128 → pos < size → pos + a ≤ size → a ≤ rest.length →
      size ≤ 2 ^ 30 →
      decompA (fuel + 1) (a :: rest) pos size acc
        = decompA fuel (rest.drop a) (pos + a) size (acc ++ rest.take a)) ∧
    decodePixels true [0x82] 2 = (2, [0, 0]) :=
  ⟨decompA_fill_step, decompA_lit_step, by decide⟩

/-- Witness for C2: the fill step on control byte 130, and a 1-byte
literal step. -/
theorem C2_grammarA_decoding_witness :
    decompA 1 [130] 0 2 [] = decompA 0 [] (0 + 2) 2 ([] ++ [0, 0]) ∧
    decompA 1 [1, 7] 0 1 [] = decompA 0 [] (0 + 1) 1 ([] ++ [7]) := by
  constructor
  · exact C2_grammarA_decoding.1 0 130 [] 0 2 [] (by decide) (by decide)
  · exact C2_grammarA_decoding.2.1 0 1 [7] 0 1 [] (by decide) (by decide)
      (by decide) (by decide) (by decide)

/-- C3: grammar B (RLE flag clear): a control byte `A > 192` reads one
fill byte `B` and emits `A - 192` copies of it (conjunct 1); `A ≤ 192`
emits the single pixel value `A` (conjunct 2); and on a 5-pixel raster
the bytes [0xC5, 0x07] decode to exactly five pixels of value 7
(conjunct 3). -/
theorem C3_grammarB_decoding :
    (∀ (fuel a b : Nat) (rest : List Nat) (pos size : Nat) (acc : List Nat),
      192 < a → pos + (a - 192) ≤ size →
      decompB (fuel + 1) (a :: b :: rest) pos size acc
        = decompB fuel rest (pos + (a - 192)) size
            (acc ++ List.replicate (a - 192) b)) ∧
    (∀ (fuel a : Nat) (rest : List Nat) (pos size : Nat) (acc : List Nat),
      a ≤ 192 → pos < size →
      decompB (fuel + 1) (a :: rest) pos size acc
        = decompB fuel rest (pos + 1) size (acc ++ [a])) ∧
    decodePixels false [0xC5, 0x07] 5 = (5, List.replicate 5 7) :=
  ⟨decompB_run_step, decompB_lit_step, by decide⟩

/-- Witness for C3: the run step on [197, 7] and the literal step on a
single byte 9. -/
theorem C3_grammarB_decoding_witness :
    decompB 1 [197, 7] 0 5 [] = decompB 0 [] (0 + 5) 5 ([] ++ [7, 7, 7, 7, 7]) ∧
    decompB 1 [9] 0 2 [] = decompB 0 [] (0 + 1) 2 ([] ++ [9]) := by
  constructor
  · exact C3_grammarB_decoding.1 0 197 7 [] 0 5 [] (by decide) (by decide)
  · exact C3_grammarB_decoding.2.1 0 9 [] 0 2 [] (by decide) (by decide)

/-- C4 counterexample: converting the 1x1 / Flags 0 / pixel byte 0x05 PID
to BMP writes 58 bytes, but its FINAL three bytes are [0, 128, 0]
(the G and R components followed by the row's padding byte), not the
B,G,R components [128, 0, 128] of `defaultPalette[5]`. -/
theorem C4_final_bytes_counterexample :
    ¬ (bmpC4out.length = 58 ∧
      bmpC4out.drop 55
        = [(defaultPalette.getD 5 czero).b, (defaultPalette.getD 5 czero).g,
            (defaultPalette.getD 5 czero).r]) := by decide

/-- C4 amended: the conversion succeeds, writes exactly 58 bytes
(14-byte file header + 40-byte info header + one row padded to 4 bytes),
and bytes 54..56 — the three bytes preceding the final padding byte —
are the B, G, R components of `defaultPalette[5]`, the last byte being
the row's zero padding. -/
theorem C4_bmp_layout_amended :
    (convertPID fullOracle pidC4src "BMP" PNGMode.png8 id).1 = 0 ∧
    bmpC4out.length = 58 ∧
    bmpC4out.drop 54
      = [(defaultPalette.getD 5 czero).b, (defaultPalette.getD 5 czero).g,
          (defaultPalette.getD 5 czero).r, 0] := by decide

/-- C5 (code bug): the claim demands failure whenever the mathematical
product `width * height` exceeds 2^30, but on the Win32/x86 target
`pixel_count` is a 32-bit `size_t`: for Width = Height = 65536 the
product 2^32 wraps to 0, the 2^30 guard passes (the parse succeeds with
`pixelCount = 0`), and the conversion proceeds to decompression, which
trivially succeeds on the empty buffer. -/
theorem C5_size_guard_overflow :
    2 ^ 30 < 65536 * 65536 ∧
    parseHeader pidC5src = some ⟨0, 65536, 65536, 0⟩ ∧
    decodePixels false (pidC5src.drop 32) 0 = (0, []) := by decide

lemma saveChecked_log_ok (o : Oracle) (chunks : List (List Nat))
    (hres : (if (writeAll o chunks).failed then 1 else 0) = (0 : Nat)) :
    ∀ e ∈ (writeAll o chunks).log, e.2 = e.1 := by
  by_cases hf : (writeAll o chunks).failed
  · rw [if_pos hf] at hres; simp at hres
  · exact writeAll_log_ok o chunks (by simpa using hf)

/-- C6 counterexample: the PNG encoder's single destination write
reports 0 of the requested bytes written, yet `SaveToPNG` returns
success (0) — a short write does not cause the PNG encoder to fail. -/
theorem C6_png_ignores_write_counterexample :
    pngShortRun.1 = 0 ∧
    pngShortRun.2.log.length = 1 ∧
    (pngShortRun.2.log.getD 0 (0, 0)).2 < (pngShortRun.2.log.getD 0 (0, 0)).1 := by
  decide

/-- C6 amended: in the BMP and Targa encoders every write call is
checked, so a successful return implies every executed write reported
the full requested count (equivalently, any short write makes them
return failure); the PNG encoder, however, issues one unchecked write
and returns 0 regardless of what the write reports. -/
theorem C6_write_failure_amended :
    (∀ (o : Oracle) (pix : List Nat) (w h : Nat) (pal : List Color)
        (trans : Bool),
      (SaveToBMP o pix w h pal trans).1 = 0 →
      ∀ e ∈ (SaveToBMP o pix w h pal trans).2.log, e.2 = e.1) ∧
    (∀ (o : Oracle) (pix : List Nat) (w h : Nat) (pal : List Color)
        (trans : Bool),
      (SaveToTGA o pix w h pal trans).1 = 0 →
      ∀ e ∈ (SaveToTGA o pix w h pal trans).2.log, e.2 = e.1) ∧
    (∀ (o : Oracle) (mode : PNGMode) (defl : List Nat → List Nat)
        (pix : List Nat) (w h : Nat) (pal : List Color) (trans : Bool),
      (SaveToPNG o mode defl pix w h pal trans).1 = 0) := by
  refine ⟨?_, ?_, fun _ _ _ _ _ _ _ _ => rfl⟩
  · intro o pix w h pal trans hres
    exact saveChecked_log_ok o (bmpChunks pix w h
      (if trans then zeroRGB0 pal else pal)) hres
  · intro o pix w h pal trans hres
    exact saveChecked_log_ok o (tgaChunks pix w h
      (if trans then zeroRGB0 pal else pal)) hres

/-- Witness for C6 (amended): the BMP and TGA encoders on a 1x1 raster
under a well-behaved host return success, so every logged write is full;
the PNG conjunct instantiated at the always-short host. -/
theorem C6_write_failure_amended_witness :
    (∀ e ∈ (SaveToBMP fullOracle [0] 1 1 defaultPalette false).2.log,
      e.2 = e.1) ∧
    (∀ e ∈ (SaveToTGA fullOracle [0] 1 1 defaultPalette false).2.log,
      e.2 = e.1) ∧
    (SaveToPNG shortOracle PNGMode.png32 id [0] 1 1 defaultPalette
        false).1 = 0 := by
  refine ⟨?_, ?_, ?_⟩
  · exact C6_write_failure_amended.1 fullOracle [0] 1 1 defaultPalette
      false (by decide)
  · exact C6_write_failure_amended.2.1 fullOracle [0] 1 1 defaultPalette
      false (by decide)
  · exact C6_write_failure_amended.2.2 shortOracle PNGMode.png32 id [0]
      1 1 defaultPalette false

/-- C7: the buffer `SaveToPNG` assembles always starts with the 8-byte
PNG signature and is exactly the concatenation of one IHDR chunk, a PLTE
chunk iff the mode is 8-bit, a tRNS chunk iff the mode is 8-bit and
transparency is enabled, one IDAT chunk, and one IEND chunk, in that
order; the tRNS payload is 256 bytes, all 255 except entry 0 = 0. -/
theorem C7_png_chunk_sequence :
    (∀ (mode : PNGMode) (defl : List Nat → List Nat) (pix : List Nat)
        (w h : Nat) (pal : List Color) (trans : Bool),
      buildPNG mode defl pix w h pal trans
        = pngSignature
          ++ writeChunk [] [73, 72, 68, 82] (ihdrPayload w h mode)
          ++ (if mode = PNGMode.png8 then
              writeChunk [] [80, 76, 84, 69] (pltePayload pal)
                ++ (if trans then
                    writeChunk [] [116, 82, 78, 83] trnsPayload
                  else [])
            else [])
          ++ writeChunk [] [73, 68, 65, 84]
              (defl (scanlines mode pix w h pal trans))
          ++ writeChunk [] [73, 69, 78, 68] []) ∧
    trnsPayload = 0 :: List.replicate 255 255 ∧
    trnsPayload.length = 256 :=
  ⟨buildPNG_layout, rfl, by decide⟩

/-- C8 (code bug): chunk framing is 4-byte big-endian length, 4-byte
type, payload, then the big-endian CRC of type ++ payload (conjunct 1),
and `crc32_png` on zero bytes returns the complement of the running CRC
(conjunct 2) — but the compiled-in table is NOT the standard PNG/zlib
table: entry 154 is 0x10DA7A56 where the standard generator yields
0x10DA7A5A, so e.g. the byte 0x65 gets CRC 0xEFDA7A56 instead of the
standard 0xEFDA7A5A (conjuncts 3-6). -/
theorem C8_crc_framing_and_table_defect :
    (∀ buf ty d : List Nat, ty ≠ [] →
      writeChunk buf ty d
        = buf ++ be32out d.length ++ ty ++ d
            ++ be32out (crc32_png (ty ++ d) 0)) ∧
    (∀ c : Nat, crc32_png [] c = c ^^^ 0xFFFFFFFF) ∧
    crcTable.getD 154 0 = 0x10DA7A56 ∧
    crcStdTable.getD 154 0 = 0x10DA7A5A ∧
    crc32_png [0x65] 0 = 0xEFDA7A56 ∧
    crc32_std [0x65] 0 = 0xEFDA7A5A := by
  refine ⟨writeChunk_layout, fun c => rfl, ?_, ?_, ?_, ?_⟩ <;> decide

/-- Witness for C8: the framing conjunct applied to the IEND chunk. -/
theorem C8_crc_framing_and_table_defect_witness :
    writeChunk [] [73, 69, 78, 68] []
      = [] ++ be32out (List.length ([] : List Nat)) ++ [73, 69, 78, 68]
          ++ [] ++ be32out (crc32_png ([73, 69, 78, 68] ++ []) 0) :=
  C8_crc_framing_and_table_defect.1 [] [73, 69, 78, 68] [] (by decide)

/-- C9: the orientation transform yields a raster of identical size
(conjunct 1) whose pixel at column x, row y is the input pixel at the
mirrored/inverted source coordinates (conjunct 2); applying both mirror
and invert to the 2x2 raster [1,2,3,4] yields [4,3,2,1] (conjunct 3).
The model is a pure function of the input list, matching the C++ which
fills a fresh `flipped` buffer without writing to `pixels`. -/
theorem C9_orientation_transform :
    (∀ (pix : List Nat) (W H : Nat) (m i : Bool),
      (flipRaster pix W H m i).length = H * W) ∧
    (∀ (pix : List Nat) (W H : Nat) (m i : Bool) (y x : Nat),
      y < H → x < W →
      (flipRaster pix W H m i).getD (y * W + x) 0
        = pix.getD ((if i then H - 1 - y else y) * W
            + (if m then W - 1 - x else x)) 0) ∧
    flipRaster [1, 2, 3, 4] 2 2 true true = [4, 3, 2, 1] :=
  ⟨flipRaster_length, flipRaster_getD, by decide⟩

/-- Witness for C9: the coordinate mapping at row 0, column 1 of the 2x2
example. -/
theorem C9_orientation_transform_witness :
    (flipRaster [1, 2, 3, 4] 2 2 true true).getD 1 0
      = ([1, 2, 3, 4] : List Nat).getD 2 0 :=
  C9_orientation_transform.2.1 [1, 2, 3, 4] 2 2 true true 0 1 (by decide)
    (by decide)

/-- C10: the decompressors never store outside the `width*height` buffer
(conjunct 1: at most `size` indices are ever emitted); a grammar-A fill
run, a grammar-A literal run, and a grammar-B run whose declared count
exceeds the remaining space are each truncated to exactly fill the
buffer, decoding stops there (the bytes after the run are never read —
the literal-run conjunct holds for every continuation `cs`), and the
final `pos` equals `size`, so the size check passes and the conversion
proceeds as a success (conjunct 5). -/
theorem C10_truncation_safety :
    (∀ (rle : Bool) (stream : List Nat) (size : Nat),
      (decodePixels rle stream size).2.length ≤ size) ∧
    (∀ (fuel a : Nat) (rest : List Nat) (pos size : Nat) (acc : List Nat),
      128 < a → pos < size → size ≤ pos + (a - 128) →
      decompA (fuel + 1) (a :: rest) pos size acc
        = (size, acc ++ List.replicate (size - pos) 0)) ∧
    (∀ (fuel a : Nat) (bs cs : List Nat) (pos size : Nat) (acc : List Nat),
      a ≤ 128 → pos < size → size ≤ 2 ^ 30 → bs.length = size - pos →
      bs.length < a →
      decompA (fuel + 1) (a :: (bs ++ cs)) pos size acc = (size, acc ++ bs)) ∧
    (∀ (fuel a b : Nat) (rest : List Nat) (pos size : Nat) (acc : List Nat),
      192 < a → pos < size → size ≤ pos + (a - 192) →
      decompB (fuel + 1) (a :: b :: rest) pos size acc
        = (size, acc ++ List.replicate (size - pos) b)) ∧
    (∀ (src : List Nat) (mode : PNGMode) (defl : List Nat → List Nat)
        (info : PidInfo) (pal : List Color),
      parseHeader src = some info →
      resolvePalette src info.flags = some pal →
      (decodePixels (info.flags.testBit 5) (src.drop 32)
          info.pixelCount).1 = info.pixelCount →
      (convertPID fullOracle src "BMP" mode defl).1 = 0) :=
  ⟨decodePixels_length_le, decompA_fill_trunc, decompA_lit_fillbuf,
    decompB_run_trunc, convertPID_decode_ok_bmp⟩

/-- Witness for C10: the bound at the 0x82 example; a fill run of 72
zeros truncated to a 2-pixel buffer; a literal run of 3 truncated after
2 bytes with an unread continuation byte; a grammar-B run of 8 fives
truncated to 3; and the end-to-end success on the 1x1 scenario. -/
theorem C10_truncation_safety_witness :
    (decodePixels true [130] 2).2.length ≤ 2 ∧
    decompA 1 [200] 0 2 [] = (2, [0, 0]) ∧
    decompA 1 [3, 9, 9, 7] 0 2 [] = (2, [9, 9]) ∧
    decompB 1 [200, 5] 0 3 [] = (3, [5, 5, 5]) ∧
    (convertPID fullOracle pidC4src "BMP" PNGMode.png8 id).1 = 0 := by
  refine ⟨?_, ?_, ?_, ?_, ?_⟩
  · exact C10_truncation_safety.1 true [130] 2
  · exact C10_truncation_safety.2.1 0 200 [] 0 2 [] (by decide) (by decide)
      (by decide)
  · exact C10_truncation_safety.2.2.1 0 3 [9, 9] [7] 0 2 [] (by decide)
      (by decide) (by decide) (by decide) (by decide)
  · exact C10_truncation_safety.2.2.2.1 0 200 5 [] 0 3 [] (by decide)
      (by decide) (by decide)
  · exact C10_truncation_safety.2.2.2.2 pidC4src PNGMode.png8 id
      ⟨0, 1, 1, 1⟩ defaultPalette (by decide) (by decide) (by decide)

end PidCodec
